import Mathlib

/-!
Verification development for the port-registry / validator / health-check
core of the repository.

The Python classes are shallowly embedded as pure Lean functions:

* `SmartPortRegistry` (smart_port_registry.py) — the on-disk registry is a
  key/value map from port to `PortAllocation`, embedded as an association
  list `Registry`.  The OS-level probe `_is_port_actually_in_use` is an
  external effect and is passed in as an oracle `inUse : Nat → Bool`.
  Timestamps are naturals (seconds); the Python `datetime` arithmetic
  `now - t > timedelta(hours=24)` becomes `now - t > 86400`.

* `EfficientLocalhostValidator` (efficient_localhost_validator.py) — the
  validation cache is an association list from port to `ValidationResult`.
  The network is an oracle `ProbeEnv`: the outcome of the raw
  `socket.connect_ex` call and the outcome of the `/json` identity request.

* `PluginHealthChecker` (plugin_health_check.py) — the external checks and
  recovery actions (dev server check, panel reload, AppleScript calls) are
  oracles bundled per loop attempt in `AttemptEnv`.
-/

set_option autoImplicit false

namespace PortSystem

/-! ## Association-list store (Python `dict` keyed by `str(port)`) -/

/-- Lookup in an association list, first match wins (Python `d[k]` / `k in d`). -/
def assocGet {α : Type} : List (Nat × α) → Nat → Option α
  | [], _ => none
  | (k, v) :: rest, key => if k == key then some v else assocGet rest key

/-- Python `d[k] = v`: replace in place when the key exists, else append. -/
def assocSet {α : Type} : List (Nat × α) → Nat → α → List (Nat × α)
  | [], key, v => [(key, v)]
  | (k, v') :: rest, key, v =>
    if k == key then (key, v) :: rest else (k, v') :: assocSet rest key v

/-- Python `del d[k]`: drop the first entry with the given key. -/
def assocRemove {α : Type} : List (Nat × α) → Nat → List (Nat × α)
  | [], _ => []
  | (k, v) :: rest, key => if k == key then rest else (k, v) :: assocRemove rest key

/-! ## Data model: `PortAllocation` (smart_port_registry.py, lines 16-26) -/

/-- Embedding of the `PortAllocation` dataclass.  `status` keeps the Python
string encoding; timestamps are seconds. -/
structure PortAllocation where
  port : Nat
  project_name : String
  plugin_name : String
  status : String
  allocated_at : Nat
  last_seen : Nat
  process_id : Option Nat := none
  debug_url : Option String := none
deriving DecidableEq, Repr

/-- The persisted registry file content: port ↦ allocation. -/
abbrev Registry : Type := List (Nat × PortAllocation)

/-- The fixed reserved-port deny-list (smart_port_registry.py, lines 46-50). -/
def reservedPorts : List Nat := [9230, 9231, 7002]

/-- The `port_ranges` table (lines 37-43) together with the
`port_ranges.get(port_type, (9230, 9250))` default used by `allocate_port`. -/
def portRanges (port_type : String) : Nat × Nat :=
  if port_type == "debug" then (9230, 9250)
  else if port_type == "dev_server" then (3001, 3020)
  else if port_type == "vite" then (5173, 5180)
  else if port_type == "webpack" then (8080, 8090)
  else if port_type == "cep_legacy" then (7002, 7010)
  else (9230, 9250)

/-- Set the `status` field of the entry for `key`, in place
(Python `self.registry[port_str].status = 'available'`). -/
def setStatus : Registry → Nat → String → Registry
  | [], _, _ => []
  | (k, a) :: rest, key, s =>
    if k == key then (k, { a with status := s }) :: rest
    else (k, a) :: setStatus rest key s

/-- `_cleanup_stale_allocations` (lines 81-99): drop every allocation whose
`allocated_at` is more than 24 hours old and whose port the OS probe reports
as not in use.  Note the source keys the age test on `allocated_at`, not
`last_seen`. -/
def cleanupStaleAllocations (inUse : Nat → Bool) (now : Nat) (reg : Registry) : Registry :=
  reg.filter fun pa => !(decide (now - pa.2.allocated_at > 86400) && !(inUse pa.1))

/-- `_can_allocate_port` (lines 123-143).  Returns the decision together with
the possibly mutated registry (the source flips a dead `active`/`reserved`
entry to `available` in memory before re-testing the port). -/
def canAllocatePort (inUse : Nat → Bool) (reg : Registry) (port : Nat) : Bool × Registry :=
  if reservedPorts.contains port then (false, reg)
  else
    match assocGet reg port with
    | some alloc =>
      if alloc.status == "active" || alloc.status == "reserved" then
        if inUse port then (false, reg)
        else (!(inUse port), setStatus reg port "available")
      else (!(inUse port), reg)
    | none => (!(inUse port), reg)

/-- `_register_allocation` (lines 145-161): store a fresh `reserved` entry. -/
def registerAllocation (now : Nat) (reg : Registry) (port : Nat)
    (project_name plugin_name : String) : Registry :=
  assocSet reg port
    { port := port
      project_name := project_name
      plugin_name := plugin_name
      status := "reserved"
      allocated_at := now
      last_seen := now
      debug_url := some ("http://localhost:" ++ toString port) }

/-- The `for port in range(start_port, end_port + 1)` scan of `allocate_port`
(lines 116-119), threading the registry through `_can_allocate_port`.
`count` is the number of ports left to try. -/
def scanPorts (inUse : Nat → Bool) (now : Nat) (project_name plugin_name : String) :
    Nat → Nat → Registry → Option Nat × Registry
  | _, 0, reg => (none, reg)
  | port, count + 1, reg =>
    let res := canAllocatePort inUse reg port
    if res.1 then (some port, registerAllocation now res.2 port project_name plugin_name)
    else scanPorts inUse now project_name plugin_name (port + 1) count res.2

/-- The range scan of `allocate_port` for a given `port_type`. -/
def allocateScan (inUse : Nat → Bool) (now : Nat) (reg : Registry)
    (project_name plugin_name : String) (port_type : String) : Option Nat × Registry :=
  let r := portRanges port_type
  scanPorts inUse now project_name plugin_name r.1 (r.2 + 1 - r.1) reg

/-- `allocate_port` (lines 101-121).  `preferred = some 0` is skipped like
Python `None` because `if preferred_port and ...` tests truthiness. -/
def allocatePort (inUse : Nat → Bool) (now : Nat) (reg : Registry)
    (project_name plugin_name : String) (preferred : Option Nat) (port_type : String) :
    Option Nat × Registry :=
  let reg1 := cleanupStaleAllocations inUse now reg
  match preferred with
  | some p =>
    if p ≠ 0 then
      let res := canAllocatePort inUse reg1 p
      if res.1 then (some p, registerAllocation now res.2 p project_name plugin_name)
      else allocateScan inUse now res.2 project_name plugin_name port_type
    else allocateScan inUse now reg1 project_name plugin_name port_type
  | none => allocateScan inUse now reg1 project_name plugin_name port_type

/-- `release_port` (lines 180-197).  `project_name = none` embeds the Python
default `None`; the source guard is `if project_name and
allocation.project_name != project_name`, so an empty string is also falsy. -/
def releasePort (reg : Registry) (port : Nat) (project_name : Option String) :
    Bool × Registry :=
  match assocGet reg port with
  | some alloc =>
    match project_name with
    | some pn =>
      if pn ≠ "" ∧ alloc.project_name ≠ pn then (false, reg)
      else (true, assocRemove reg port)
    | none => (true, assocRemove reg port)
  | none => (false, reg)

/-! ## `EfficientLocalhostValidator` (efficient_localhost_validator.py) -/

/-- One entry of the `/json` identity response, as the validator reads it:
only `target.get('title', '')` is consumed. -/
structure Target where
  title : String
deriving DecidableEq, Repr

/-- Outcome of the application-level identity request
`urlopen('http://localhost:PORT/json')` + `json.loads`, matching the
except-clauses of `validate_port` lines 160-165.  `targets` means the whole
fetch-and-parse succeeded; `otherErr` is the bare `except Exception` arm
(it covers, e.g., a JSON parse failure). -/
inductive IdentityOutcome where
  | targets (ts : List Target)
  | httpErr (code : Nat)
  | urlErr (reason : String)
  | otherErr (msg : String)
deriving DecidableEq, Repr

deriving instance DecidableEq for Except

/-- The network oracle for one probing pass of `validate_port`:
`connect` is what `socket.connect_ex` does (`Except.error msg` for a raised
socket exception, `Except.ok c` for a returned code, 0 = connected), and
`identity` is the identity-request outcome used only when `connect = ok 0`. -/
structure ProbeEnv where
  connect : Except String Nat
  identity : IdentityOutcome
deriving DecidableEq, Repr

/-- Embedding of the result dict built by `validate_port` (lines 110-119).
`plugin_title` is `none` when the key is absent. -/
structure ValidationResult where
  port : Nat
  plugin_name : Option String
  available : Bool
  reachable : Bool
  is_plugin : Bool
  error : Option String
  timestamp : Nat
  from_cache : Bool
  plugin_title : Option String := none
deriving DecidableEq, Repr

/-- The persisted validation cache: port ↦ most recent result. -/
abbrev Cache : Type := List (Nat × ValidationResult)

/-- `cache_duration = 300` seconds (line 24). -/
def cacheDuration : Nat := 300

/-- The raw-socket timeout `sock.settimeout(2)` of `validate_port` (line 124). -/
def socketTimeoutSeconds : Nat := 2

/-- `_is_cache_valid` (lines 42-49): an entry exists and is younger than the
TTL (`datetime.now() - cached_time < timedelta(seconds=300)`). -/
def isCacheValid (cache : Cache) (now : Nat) (port : Nat) : Bool :=
  match assocGet cache port with
  | none => false
  | some r => now - r.timestamp < cacheDuration

/-- Python truthiness of the optional `plugin_name` argument. -/
def pyTruthy : Option String → Bool
  | none => false
  | some s => !s.isEmpty

/-- `leadMatch needle hay`: `needle` is an initial segment of `hay`. -/
def leadMatch : List Char → List Char → Bool
  | [], _ => true
  | _ :: _, [] => false
  | a :: as, b :: bs => a == b && leadMatch as bs

/-- `subMatch needle hay`: `needle` occurs contiguously inside `hay`. -/
def subMatch (needle : List Char) : List Char → Bool
  | [] => needle.isEmpty
  | b :: bs => leadMatch needle (b :: bs) || subMatch needle bs

/-- Python `needle in hay` on strings (substring containment). -/
def strIn (needle hay : String) : Bool := subMatch needle.data hay.data

/-- The `for target in targets` loop of `validate_port` (lines 149-158):
first matching title wins (`break`), checking the caller's `plugin_name`
substring first, then the generic `'CEP' in title or 'Extension' in title`. -/
def scanTargets (plugin_name : Option String) (r : ValidationResult) :
    List Target → ValidationResult
  | [] => r
  | t :: ts =>
    if pyTruthy plugin_name && strIn (plugin_name.getD "") t.title then
      { r with is_plugin := true, plugin_title := some t.title }
    else if strIn "CEP" t.title || strIn "Extension" t.title then
      { r with is_plugin := true, plugin_title := some t.title }
    else scanTargets plugin_name r ts

/-- `validate_port` (lines 100-171).  Returns the result and the updated
cache.  The cache-hit branch mutates the cached dict itself
(`cached['from_cache'] = True`), so the stored entry flips too.  Every
probing branch stores its result (`self._cache[str(port)] = result`). -/
def validatePort (env : ProbeEnv) (now : Nat) (cache : Cache)
    (port : Nat) (plugin_name : Option String) (force : Bool) :
    ValidationResult × Cache :=
  match (if !force && isCacheValid cache now port then assocGet cache port else none) with
  | some c =>
    let c' := { c with from_cache := true }
    (c', assocSet cache port c')
  | none =>
    let base : ValidationResult :=
      { port := port
        plugin_name := plugin_name
        available := false
        reachable := false
        is_plugin := false
        error := none
        timestamp := now
        from_cache := false }
    match env.connect with
    | Except.error msg =>
      let r := { base with error := some ("Socket error: " ++ msg) }
      (r, assocSet cache port r)
    | Except.ok code =>
      if code ≠ 0 then
        let r := { base with error := some "Port not open" }
        (r, assocSet cache port r)
      else
        match env.identity with
        | IdentityOutcome.targets ts =>
          let r := scanTargets plugin_name
            { base with reachable := true, available := true } ts
          (r, assocSet cache port r)
        | IdentityOutcome.httpErr c =>
          let r := { base with error := some ("HTTP error: " ++ toString c) }
          (r, assocSet cache port r)
        | IdentityOutcome.urlErr reason =>
          let r := { base with error := some ("URL error: " ++ reason) }
          (r, assocSet cache port r)
        | IdentityOutcome.otherErr msg =>
          let r := { base with error := some ("Unexpected error: " ++ msg) }
          (r, assocSet cache port r)

/-- The spec's error taxonomy (§7), for classifying the string encodings
the source writes into `result['error']`. -/
inductive ErrKind where
  | noError
  | portClosed
  | protocolError
  | timeout
  | internalProbeFailure
deriving DecidableEq, Repr

/-- Map the validator's error strings onto the spec's taxonomy:
`'Port not open'` is the connection-refused arm (`PortClosed`); the three
identity-request arms are application-level protocol failures
(`ProtocolError`); a raised socket error (which includes `socket.timeout`)
is the transport-timeout arm (`Timeout`). -/
def classifyErr : Option String → ErrKind
  | none => ErrKind.noError
  | some s =>
    if leadMatch "HTTP error: ".data s.data then ErrKind.protocolError
    else if leadMatch "URL error: ".data s.data then ErrKind.protocolError
    else if leadMatch "Unexpected error: ".data s.data then ErrKind.protocolError
    else if leadMatch "Socket error: ".data s.data then ErrKind.timeout
    else if s == "Port not open" then ErrKind.portClosed
    else ErrKind.internalProbeFailure

/-! ## `PluginHealthChecker` (plugin_health_check.py) -/

/-- `max_retries = 3` from `PluginHealthChecker.__init__` (line 22). -/
def maxRetriesDefault : Nat := 3

/-- Outcomes of the two checks `perform_health_check` runs (lines 196-219):
the dev-server probe, the DevTools plugin probe, and whether the plugin
check message contains `'page failed'` (consumed by `auto_recover`). -/
structure HealthChecks where
  dev_ok : Bool
  plugin_ok : Bool
  plugin_page_failed_msg : Bool
deriving DecidableEq, Repr

/-- `results['healthy'] = dev_ok and plugin_ok` (line 217). -/
def performHealthCheck (c : HealthChecks) : Bool := c.dev_ok && c.plugin_ok

/-- Oracle for one `auto_recover` call (lines 221-263): its own
`perform_health_check` outcome plus the outcomes of the external recovery
actions it may invoke, in source order. -/
structure RecoveryEnv where
  inner_checks : HealthChecks
  restart_dev : Bool
  reload_panel : Bool
  recheck_plugin : Bool
  premiere_reload : Bool
  final_checks : HealthChecks
deriving DecidableEq, Repr

/-- `auto_recover` (lines 221-263): return immediately if already healthy;
step 1 restarts the dev server when its check failed (aborting on failure);
step 2 reloads the panel and re-checks, then escalates to the Premiere
reload with a full re-check; otherwise recovery fails. -/
def autoRecover (r : RecoveryEnv) : Bool :=
  let h := r.inner_checks
  if performHealthCheck h then true
  else if !h.dev_ok && !r.restart_dev then false
  else if !h.plugin_ok || h.plugin_page_failed_msg then
    if r.reload_panel && r.recheck_plugin then true
    else if r.premiere_reload && performHealthCheck r.final_checks then true
    else false
  else false

/-- Oracles for one iteration of the `ensure_healthy` loop: the health
check run by the loop body itself, and the environment of the
`auto_recover` call it makes on failure. -/
structure AttemptEnv where
  checks : HealthChecks
  recovery : RecoveryEnv
deriving DecidableEq, Repr

/-- The `for attempt in range(self.max_retries)` loop of `ensure_healthy`
(lines 265-284).  Returns the boolean result paired with the number of
loop iterations whose health check came back unhealthy (the consecutive
failure count). -/
def ensureHealthyAux (env : Nat → AttemptEnv) : Nat → Nat → Bool × Nat
  | attempt, 0 => (false, attempt)
  | attempt, fuel + 1 =>
    let e := env attempt
    if performHealthCheck e.checks then (true, attempt)
    else if autoRecover e.recovery then (true, attempt + 1)
    else ensureHealthyAux env (attempt + 1) fuel

/-- `ensure_healthy` (lines 265-284), instrumented with the count of failed
attempts. -/
def ensureHealthy (env : Nat → AttemptEnv) (max_retries : Nat) : Bool × Nat :=
  ensureHealthyAux env 0 max_retries

/-! ## Two concurrent `allocate_port` invocations

`SmartPortRegistry` loads the registry file once in `__init__` and
`_save_registry` rewrites the whole file with plain `open(..., 'w')` —
there is no file lock and no atomic-rename discipline anywhere in the
source.  Two independent processes may therefore both load the file before
either saves.  `runConcurrentAllocate` is exactly that schedule:
load A, load B, compute+save A, compute+save B (B's write lands last). -/

/-- Arguments of one `allocate_port` call. -/
structure AllocCall where
  project_name : String
  plugin_name : String
  preferred : Option Nat
  port_type : String
deriving DecidableEq, Repr

/-- Run one `allocate_port` call against a loaded registry state. -/
def runAlloc (inUse : Nat → Bool) (now : Nat) (reg : Registry) (c : AllocCall) :
    Option Nat × Registry :=
  allocatePort inUse now reg c.project_name c.plugin_name c.preferred c.port_type

/-- The unguarded interleaving both-load-then-both-save of two concurrent
`allocate_port` invocations against the shared registry file: each process
computes from the same loaded file contents; the file ends with the second
writer's state.  Returns (port of A, port of B, final file). -/
def runConcurrentAllocate (inUse : Nat → Bool) (now : Nat) (file : Registry)
    (a b : AllocCall) : Option Nat × Option Nat × Registry :=
  let ra := runAlloc inUse now file a
  let rb := runAlloc inUse now file b
  (ra.1, rb.1, rb.2)

/-! ## Concrete fixtures used by witnesses and counterexamples -/

/-- A concrete allocation owned by `projA`. -/
def allocA : PortAllocation :=
  { port := 9240, project_name := "projA", plugin_name := "panelA",
    status := "active", allocated_at := 0, last_seen := 0 }

/-- A concrete allocation owned by `projB`. -/
def allocB : PortAllocation :=
  { port := 9241, project_name := "projB", plugin_name := "panelB",
    status := "reserved", allocated_at := 0, last_seen := 0 }

/-- A concrete two-entry registry. -/
def regW : Registry := [(9240, allocA), (9241, allocB)]

/-- A health-check environment in which every check and every recovery
action fails at every attempt. -/
def envFail : Nat → AttemptEnv := fun _ =>
  { checks := { dev_ok := false, plugin_ok := false, plugin_page_failed_msg := false },
    recovery :=
      { inner_checks := { dev_ok := false, plugin_ok := false, plugin_page_failed_msg := false },
        restart_dev := false, reload_panel := false, recheck_plugin := false,
        premiere_reload := false,
        final_checks := { dev_ok := false, plugin_ok := false, plugin_page_failed_msg := false } } }

/-! ## Helper lemmas -/

theorem assocGet_assocSet_self {α : Type} (l : List (Nat × α)) (k : Nat) (v : α) :
    assocGet (assocSet l k v) k = some v := by
  induction l with
  | nil => simp [assocSet, assocGet]
  | cons hd tl ih =>
    obtain ⟨k', v'⟩ := hd
    unfold assocSet
    split
    · simp [assocGet]
    · simp only [assocGet]
      split
      next h => simp_all
      next h => exact ih

theorem assocGet_assocRemove_ne {α : Type} (l : List (Nat × α)) (k q : Nat) (hne : q ≠ k) :
    assocGet (assocRemove l k) q = assocGet l q := by
  induction l with
  | nil => rfl
  | cons hd tl ih =>
    obtain ⟨k', v'⟩ := hd
    unfold assocRemove
    split
    next h =>
      have : k' = k := by simpa using h
      subst this
      simp [assocGet, (by simpa using hne.symm : (k' == q) = false)]
    next h => simp only [assocGet]; split <;> simp_all

theorem assocGet_some_mem_keys {α : Type} (l : List (Nat × α)) (k : Nat) (v : α)
    (h : assocGet l k = some v) : k ∈ l.map Prod.fst := by
  induction l with
  | nil => simp [assocGet] at h
  | cons hd tl ih =>
    obtain ⟨k2, v2⟩ := hd
    unfold assocGet at h
    split at h
    next heq =>
      have : k2 = k := by simpa using heq
      subst this
      simp
    next heq => simp [ih h]

theorem assocGet_assocRemove_self {α : Type} (l : List (Nat × α)) (k : Nat)
    (hnodup : (l.map Prod.fst).Nodup) :
    assocGet (assocRemove l k) k = none := by
  induction l with
  | nil => rfl
  | cons hd tl ih =>
    obtain ⟨k', v'⟩ := hd
    simp only [List.map_cons, List.nodup_cons] at hnodup
    unfold assocRemove
    split
    next h =>
      have hk : k' = k := by simpa using h
      subst hk
      cases hget : assocGet tl k' with
      | none => rfl
      | some w => exact absurd (assocGet_some_mem_keys tl k' w hget) hnodup.1
    next h => simp only [assocGet]; split <;> simp_all

theorem canAllocatePort_true (inUse : Nat → Bool) (reg : Registry) (p : Nat)
    (h : (canAllocatePort inUse reg p).1 = true) :
    reservedPorts.contains p = false ∧ inUse p = false := by
  unfold canAllocatePort at h
  split at h
  next hres => simp at h
  next hres =>
    refine ⟨by simpa using hres, ?_⟩
    split at h
    next alloc hget =>
      split at h
      · split at h
        · simp at h
        · simpa using h
      · simpa using h
    next hget => simpa using h

theorem canAllocatePort_of_inUse (inUse : Nat → Bool) (reg : Registry) (p : Nat)
    (h : inUse p = true) : canAllocatePort inUse reg p = (false, reg) := by
  unfold canAllocatePort
  split
  · rfl
  · split
    next alloc hget =>
      split
      · simp [h]
      · simp [h]
    next hget => simp [h]

theorem scanPorts_fst_some (inUse : Nat → Bool) (now : Nat) (pr pl : String) :
    ∀ (count start : Nat) (reg : Registry) (p : Nat),
      (scanPorts inUse now pr pl start count reg).1 = some p →
      reservedPorts.contains p = false ∧ inUse p = false := by
  intro count
  induction count with
  | zero => intro start reg p h; simp [scanPorts] at h
  | succ k ih =>
    intro start reg p h
    unfold scanPorts at h
    by_cases hc : (canAllocatePort inUse reg start).1 = true
    · simp only [hc, if_true] at h
      have : start = p := by simpa using h
      subst this
      exact canAllocatePort_true inUse reg start hc
    · simp only [Bool.not_eq_true] at hc
      simp only [hc, Bool.false_eq_true, if_false] at h
      exact ih (start + 1) (canAllocatePort inUse reg start).2 p h

theorem scanPorts_of_all_inUse (inUse : Nat → Bool) (now : Nat) (pr pl : String)
    (hall : ∀ q, inUse q = true) :
    ∀ (count start : Nat) (reg : Registry),
      scanPorts inUse now pr pl start count reg = (none, reg) := by
  intro count
  induction count with
  | zero => intro start reg; rfl
  | succ k ih =>
    intro start reg
    unfold scanPorts
    rw [canAllocatePort_of_inUse inUse reg start (hall start)]
    simpa using ih (start + 1) reg

theorem allocatePort_fst_some (inUse : Nat → Bool) (now : Nat) (reg : Registry)
    (pr pl pt : String) (pref : Option Nat) (p : Nat)
    (h : (allocatePort inUse now reg pr pl pref pt).1 = some p) :
    reservedPorts.contains p = false ∧ inUse p = false := by
  unfold allocatePort at h
  cases pref with
  | none => exact scanPorts_fst_some inUse now pr pl _ _ _ p h
  | some q =>
    by_cases hq : q ≠ 0
    · simp only [if_pos hq] at h
      by_cases hc : (canAllocatePort inUse (cleanupStaleAllocations inUse now reg) q).1 = true
      · simp only [hc, if_true] at h
        have : q = p := by simpa using h
        subst this
        exact canAllocatePort_true inUse _ q hc
      · simp only [Bool.not_eq_true] at hc
        simp only [hc, Bool.false_eq_true, if_false] at h
        exact scanPorts_fst_some inUse now pr pl _ _ _ p h
    · simp only [if_neg hq] at h
      exact scanPorts_fst_some inUse now pr pl _ _ _ p h

theorem allocatePort_of_all_inUse (inUse : Nat → Bool) (now : Nat) (reg : Registry)
    (pr pl pt : String) (pref : Option Nat)
    (hall : ∀ q, inUse q = true) :
    (allocatePort inUse now reg pr pl pref pt).1 = none := by
  cases pref with
  | none =>
    simp only [allocatePort, allocateScan]
    rw [scanPorts_of_all_inUse inUse now pr pl hall]
  | some q =>
    by_cases hq : q ≠ 0
    · simp only [allocatePort, allocateScan, if_pos hq]
      rw [canAllocatePort_of_inUse inUse _ q (hall q)]
      simp only [Bool.false_eq_true, if_false]
      rw [scanPorts_of_all_inUse inUse now pr pl hall]
    · simp only [allocatePort, allocateScan, if_neg hq]
      rw [scanPorts_of_all_inUse inUse now pr pl hall]

theorem validatePort_snd_get (env : ProbeEnv) (now : Nat) (cache : Cache)
    (port : Nat) (pn : Option String) (force : Bool) :
    assocGet (validatePort env now cache port pn force).2 port
      = some (validatePort env now cache port pn force).1 := by
  unfold validatePort
  split
  · simp [assocGet_assocSet_self]
  · split
    · simp [assocGet_assocSet_self]
    · split
      · simp [assocGet_assocSet_self]
      · split <;> simp [assocGet_assocSet_self]

theorem leadMatch_append (l m : List Char) : leadMatch l (l ++ m) = true := by
  induction l with
  | nil => rfl
  | cons a as ih => simp [leadMatch, ih]

/-! ## Claim theorems -/

/-- C1 (counterexample).  The claim says two concurrent `allocate()` calls
with distinct owners can never claim the same port because every
read-modify-write of the store is atomic.  The source takes no lock and
does no atomic rename, so the schedule in which both processes load the
registry file before either saves is possible — and under it both calls
succeed and both return port 9232 even though the owners differ. -/
theorem allocate_concurrent_double_claim :
    ((runConcurrentAllocate (fun _ => false) 0 []
        ⟨"proj1", "panelA", none, "debug"⟩ ⟨"proj2", "panelB", none, "debug"⟩).1
      = some 9232) ∧
    ((runConcurrentAllocate (fun _ => false) 0 []
        ⟨"proj1", "panelA", none, "debug"⟩ ⟨"proj2", "panelB", none, "debug"⟩).2.1
      = some 9232) ∧
    ("proj1" : String) ≠ "proj2" := by
  decide

/-- C1 (amended).  The registry performs no locking, so concurrency alone
does not keep allocations distinct.  What the code does guarantee: an
`allocate_port` call never returns a port the OS probe reports as in use,
so two calls (here serialized through the store) return distinct ports
whenever the first port is actually bound by the time the second call
probes. -/
theorem allocate_sequential_distinct_when_bound (inUse1 inUse2 : Nat → Bool)
    (now1 now2 : Nat) (file : Registry) (a b : AllocCall) (p1 p2 : Nat)
    (h1 : (runAlloc inUse1 now1 file a).1 = some p1)
    (hbound : inUse2 p1 = true)
    (h2 : (runAlloc inUse2 now2 (runAlloc inUse1 now1 file a).2 b).1 = some p2) :
    p2 ≠ p1 := by
  have h2' : (allocatePort inUse2 now2 (runAlloc inUse1 now1 file a).2
      b.project_name b.plugin_name b.preferred b.port_type).1 = some p2 := h2
  have h := allocatePort_fst_some inUse2 now2 _ b.project_name b.plugin_name
    b.port_type b.preferred p2 h2'
  intro hEq
  rw [hEq] at h
  rw [h.2] at hbound
  exact Bool.false_ne_true hbound

/-- Witness for `allocate_sequential_distinct_when_bound`: first call on an
empty registry claims 9232; with 9232 then OS-bound, the second call claims
9233 ≠ 9232. -/
theorem allocate_sequential_distinct_when_bound_witness :
    ((runAlloc (fun _ => false) 0 [] ⟨"proj1", "panelA", none, "debug"⟩).1 = some 9232) ∧
    ((fun q => q == 9232) 9232 = true) ∧
    ((runAlloc (fun q => q == 9232) 0
        (runAlloc (fun _ => false) 0 [] ⟨"proj1", "panelA", none, "debug"⟩).2
        ⟨"proj2", "panelB", none, "debug"⟩).1 = some 9233) ∧
    (9233 : Nat) ≠ 9232 :=
  ⟨by decide, by decide, by decide,
    allocate_sequential_distinct_when_bound (fun _ => false) (fun q => q == 9232)
      0 0 [] ⟨"proj1", "panelA", none, "debug"⟩ ⟨"proj2", "panelB", none, "debug"⟩
      9232 9233 (by decide) (by decide) (by decide)⟩

/-- C2 (counterexample).  The claim's concrete scenario says that on an
empty registry `allocate("proj1","panelA", preferred=9230)` with port 9230
free returns 9230.  But 9230 is on the source's fixed deny-list
(`reserved_ports`), so `_can_allocate_port(9230)` is false and the call
falls through to the range scan, returning 9232 ≠ 9230. -/
theorem allocate_preferred_9230_returns_9232 :
    ((allocatePort (fun _ => false) 0 [] "proj1" "panelA" (some 9230) "debug").1
      = some 9232) ∧
    some 9232 ≠ some (9230 : Nat) ∧
    reservedPorts.contains 9230 = true := by
  decide

/-- C2 (amended).  A given nonzero preferred port is returned exactly when
`_can_allocate_port` accepts it (not deny-listed, and not both
registry-claimed and OS-bound; OS probe reports it free); otherwise the
range is scanned in ascending order.  Ownership plays no role in the scan:
a port registered to another owner is reused whenever the OS probe reports
it unbound.  In the claim's scenario the first call returns 9232 (9230 and
9231 are deny-listed), and the follow-up call returns 9233 once 9232 is
actually bound. -/
theorem allocate_preferred_and_scan_amended (inUse : Nat → Bool) (now : Nat)
    (reg : Registry) (pr pl pt : String) (p : Nat) (hp : p ≠ 0)
    (hcan : (canAllocatePort inUse (cleanupStaleAllocations inUse now reg) p).1 = true) :
    ((allocatePort inUse now reg pr pl (some p) pt).1 = some p) ∧
    ((allocatePort (fun _ => false) 0 [] "proj1" "panelA" (some 9230) "debug").1
      = some 9232) ∧
    ((allocatePort (fun q => q == 9232) 0
        (allocatePort (fun _ => false) 0 [] "proj1" "panelA" (some 9230) "debug").2
        "proj1" "panelB" (some 9230) "debug").1 = some 9233) := by
  refine ⟨?_, by decide, by decide⟩
  simp only [allocatePort, if_pos hp, hcan, if_true]

/-- Witness for `allocate_preferred_and_scan_amended` at preferred port
9240 on an empty registry. -/
theorem allocate_preferred_and_scan_amended_witness :
    ((9240 : Nat) ≠ 0) ∧
    ((canAllocatePort (fun _ => false)
        (cleanupStaleAllocations (fun _ => false) 0 []) 9240).1 = true) ∧
    ((allocatePort (fun _ => false) 0 [] "proj1" "panelMain" (some 9240) "debug").1
      = some 9240) :=
  ⟨by decide, by decide,
    (allocate_preferred_and_scan_amended (fun _ => false) 0 [] "proj1" "panelMain"
      "debug" 9240 (by decide) (by decide)).1⟩

/-- C3 (confirmed).  `allocate_port` never returns a deny-listed port: any
successful result fails the `reserved_ports` membership test.  And when no
port is allocatable (here: the OS probe reports every port in use, which
also covers a range consisting only of reserved ports), the call returns
`None` — the source's encoding of `NoPortsAvailable` — rather than reusing
a reserved port. -/
theorem allocate_never_returns_reserved (inUse : Nat → Bool) (now : Nat)
    (reg : Registry) (pr pl pt : String) (pref : Option Nat) (p : Nat) :
    ((allocatePort inUse now reg pr pl pref pt).1 = some p →
        reservedPorts.contains p = false) ∧
    ((∀ q, inUse q = true) → (allocatePort inUse now reg pr pl pref pt).1 = none) ∧
    ((allocatePort (fun _ => true) 0 [] "proj" "panel" (some 9230) "debug").1 = none) :=
  ⟨fun h => (allocatePort_fst_some inUse now reg pr pl pt pref p h).1,
   fun hall => allocatePort_of_all_inUse inUse now reg pr pl pt pref hall,
   by decide⟩

/-- Witness for `allocate_never_returns_reserved`: the port actually
returned on an empty registry, 9232, is not deny-listed; an all-busy probe
yields `none`. -/
theorem allocate_never_returns_reserved_witness :
    reservedPorts.contains 9232 = false ∧
    (allocatePort (fun _ => true) 0 [] "p1" "x" none "debug").1 = none :=
  ⟨(allocate_never_returns_reserved (fun _ => false) 0 [] "p1" "x" "debug" none 9232).1
      (by decide),
   (allocate_never_returns_reserved (fun _ => true) 0 [] "p1" "x" "debug" none 9232).2.1
      (fun _ => rfl)⟩

/-- C6 (counterexample).  The claim says `cleanupStale()` removes an
allocation only when its `lastSeenAt` is older than 24 hours.  The source
keys the age test on `allocated_at` instead: an allocation whose
`last_seen` equals the current time (0 seconds old) but whose
`allocated_at` is ancient is purged once the OS probe finds the port
unbound. -/
theorem cleanup_removes_fresh_last_seen :
    (cleanupStaleAllocations (fun _ => false) 200000
        [(9240, { port := 9240, project_name := "proj1", plugin_name := "panelA",
                  status := "active", allocated_at := 0, last_seen := 200000 })] = []) ∧
    ((200000 : Nat) - 200000 ≤ 86400) := by
  decide

/-- C6 (amended).  `_cleanup_stale_allocations` removes an allocation
exactly when its `allocated_at` (not `lastSeenAt`) is over 24 hours old
and the OS probe reports the port unbound; in particular it never removes
an allocation whose port is confirmed bound, however old, and every
surviving entry is kept verbatim. -/
theorem cleanup_stale_allocated_at_spec (inUse : Nat → Bool) (now : Nat)
    (reg : Registry) (p : Nat) (a : PortAllocation) (hmem : (p, a) ∈ reg) :
    ((p, a) ∈ cleanupStaleAllocations inUse now reg ↔
        ¬(now - a.allocated_at > 86400 ∧ inUse p = false)) ∧
    (inUse p = true → (p, a) ∈ cleanupStaleAllocations inUse now reg) := by
  have key : (p, a) ∈ cleanupStaleAllocations inUse now reg ↔
      ¬(now - a.allocated_at > 86400 ∧ inUse p = false) := by
    unfold cleanupStaleAllocations
    rw [List.mem_filter]
    by_cases h1 : now - a.allocated_at > 86400
    · by_cases h2 : inUse p = true
      · simp [hmem, h1, h2]
      · simp only [Bool.not_eq_true] at h2
        simp [hmem, h1, h2]
    · simp [hmem, h1]
  refine ⟨key, fun hin => key.mpr ?_⟩
  intro hc
  rw [hin] at hc
  simp at hc

/-- Witness for `cleanup_stale_allocated_at_spec`: a bound port's entry in
`regW` survives the sweep. -/
theorem cleanup_stale_allocated_at_spec_witness :
    (9240, allocA) ∈ cleanupStaleAllocations (fun _ => true) 200000 regW :=
  (cleanup_stale_allocated_at_spec (fun _ => true) 200000 regW 9240 allocA
    (by simp [regW])).2 rfl

/-- C8 (confirmed).  `release_port` returns `False` and leaves the registry
untouched when the port has no allocation, and when the supplied project
differs from the owning project; a successful release leaves every other
port's entry unchanged and (keys being unique, as in a dict) removes the
released port's entry. -/
theorem release_port_spec (reg : Registry) (port : Nat) :
    (assocGet reg port = none → ∀ pn, releasePort reg port pn = (false, reg)) ∧
    (∀ a pn, assocGet reg port = some a → pn ≠ "" → a.project_name ≠ pn →
        releasePort reg port (some pn) = (false, reg)) ∧
    (∀ pn reg', releasePort reg port pn = (true, reg') →
        (∀ q, q ≠ port → assocGet reg' q = assocGet reg q) ∧
        ((reg.map Prod.fst).Nodup → assocGet reg' port = none)) := by
  refine ⟨?_, ?_, ?_⟩
  · intro h pn
    unfold releasePort
    rw [h]
  · intro a pn hget hpn hproj
    unfold releasePort
    rw [hget]
    simp only [if_pos (And.intro hpn hproj)]
  · intro pn reg' h
    have hrem : reg' = assocRemove reg port := by
      unfold releasePort at h
      cases hget : assocGet reg port with
      | none =>
        simp only [hget] at h
        simp at h
      | some a =>
        simp only [hget] at h
        cases pn with
        | none =>
          simp only [Prod.mk.injEq, true_and] at h
          exact h.symm
        | some pn' =>
          split at h
          · split at h
            · simp at h
            · simp only [Prod.mk.injEq, true_and] at h
              exact h.symm
          · simp only [Prod.mk.injEq, true_and] at h
            exact h.symm
    subst hrem
    exact ⟨fun q hq => assocGet_assocRemove_ne reg port q hq,
      fun hnd => assocGet_assocRemove_self reg port hnd⟩

/-- Witness for `release_port_spec` on the concrete registry `regW`. -/
theorem release_port_spec_witness :
    (releasePort [] 9240 none = (false, [])) ∧
    (releasePort regW 9240 (some "other") = (false, regW)) ∧
    (assocGet (assocRemove regW 9240) 9241 = assocGet regW 9241) ∧
    (assocGet (assocRemove regW 9240) 9240 = none) :=
  ⟨(release_port_spec [] 9240).1 rfl none,
   (release_port_spec regW 9240).2.1 allocA "other" rfl (by decide) (by decide),
   ((release_port_spec regW 9240).2.2 none (assocRemove regW 9240) (by decide)).1
      9241 (by decide),
   ((release_port_spec regW 9240).2.2 none (assocRemove regW 9240) (by decide)).2
      (by decide)⟩

/-- C10 (confirmed).  Calling `release_port` with the default
`project_name=None` deletes the allocation and returns `True` no matter
which project owns it: the ownership guard `if project_name and ...` only
fires when a (non-empty) project name is supplied, so omitting it is an
unconditional override. -/
theorem release_without_project_overrides (reg : Registry) (port : Nat)
    (a : PortAllocation) (h : assocGet reg port = some a) :
    (releasePort reg port none = (true, assocRemove reg port)) ∧
    (∀ pn, pn ≠ "" → a.project_name ≠ pn →
        releasePort reg port (some pn) = (false, reg)) := by
  constructor
  · unfold releasePort
    rw [h]
  · intro pn hpn hne
    unfold releasePort
    rw [h]
    simp only [if_pos (And.intro hpn hne)]

/-- Witness for `release_without_project_overrides`: `projA`'s port 9240 is
released with no project argument, while `projB` cannot release it by
name. -/
theorem release_without_project_overrides_witness :
    (releasePort regW 9240 none = (true, assocRemove regW 9240)) ∧
    (releasePort regW 9240 (some "projB") = (false, regW)) :=
  ⟨(release_without_project_overrides regW 9240 allocA rfl).1,
   (release_without_project_overrides regW 9240 allocA rfl).2 "projB"
      (by decide) (by decide)⟩

/-- Cache-hit behavior of `validate_port`: with a fresh cached entry and no
`force`, the call returns the cached result with `from_cache` flipped, and
the cache entry itself is updated the same way. -/
theorem validatePort_cache_hit (env : ProbeEnv) (now : Nat) (cache : Cache)
    (port : Nat) (pn : Option String) (r : ValidationResult)
    (hget : assocGet cache port = some r)
    (hfresh : now - r.timestamp < cacheDuration) :
    validatePort env now cache port pn false
      = ({ r with from_cache := true }, assocSet cache port { r with from_cache := true }) := by
  have hvalid : isCacheValid cache now port = true := by
    unfold isCacheValid
    rw [hget]
    simpa using hfresh
  unfold validatePort
  simp [hvalid, hget]

/-- C4 (confirmed).  A second `validate_port` call on the same port within
the TTL and without `force` returns the first call's result bit-for-bit
with only `from_cache` flipped to `true`, and performs no new probe: the
result is independent of the second call's network environment `env2`. -/
theorem validate_twice_within_ttl (env1 env2 : ProbeEnv) (now1 now2 port : Nat)
    (pn : Option String) (cache : Cache)
    (hfresh : now2 - (validatePort env1 now1 cache port pn false).1.timestamp
        < cacheDuration) :
    validatePort env2 now2 (validatePort env1 now1 cache port pn false).2 port pn false
      = ({ (validatePort env1 now1 cache port pn false).1 with from_cache := true },
         assocSet (validatePort env1 now1 cache port pn false).2 port
           { (validatePort env1 now1 cache port pn false).1 with from_cache := true }) :=
  validatePort_cache_hit env2 now2 _ port pn _
    (validatePort_snd_get env1 now1 cache port pn false) hfresh

/-- Witness for `validate_twice_within_ttl`: a probe at time 0 stores a
result; a second call at time 10 returns it from cache unchanged except
for `from_cache`, whatever the second call's network would have done. -/
theorem validate_twice_within_ttl_witness :
    ((10 : Nat) - (validatePort ⟨Except.ok 1, IdentityOutcome.targets []⟩ 0 []
        9230 none false).1.timestamp < cacheDuration) ∧
    (validatePort ⟨Except.error "x", IdentityOutcome.targets []⟩ 10
        (validatePort ⟨Except.ok 1, IdentityOutcome.targets []⟩ 0 [] 9230 none false).2
        9230 none false
      = ({ (validatePort ⟨Except.ok 1, IdentityOutcome.targets []⟩ 0 [] 9230 none false).1
            with from_cache := true },
         assocSet
           (validatePort ⟨Except.ok 1, IdentityOutcome.targets []⟩ 0 [] 9230 none false).2
           9230
           { (validatePort ⟨Except.ok 1, IdentityOutcome.targets []⟩ 0 [] 9230 none false).1
              with from_cache := true })) :=
  ⟨by decide,
   validate_twice_within_ttl ⟨Except.ok 1, IdentityOutcome.targets []⟩
     ⟨Except.error "x", IdentityOutcome.targets []⟩ 0 10 9230 none [] (by decide)⟩

/-- C5 (counterexample).  The claim says a probe whose transport connection
succeeds but whose identity response fails to parse returns
`reachableAtTransport=true`.  In the source, `result['reachable'] = True`
is only executed after `json.loads` succeeds, so a parse failure leaves
`reachable=False`. -/
theorem validate_parse_failure_reachable_false :
    ((validatePort ⟨Except.ok 0, IdentityOutcome.otherErr "Expecting value"⟩ 0 []
        9230 (some "AI SFX Generator") false).1.reachable = false) ∧
    (classifyErr (validatePort ⟨Except.ok 0, IdentityOutcome.otherErr "Expecting value"⟩
        0 [] 9230 (some "AI SFX Generator") false).1.error = ErrKind.protocolError) := by
  decide

theorem classifyErr_http (x : String) :
    classifyErr (some ("HTTP error: " ++ x)) = ErrKind.protocolError := rfl

theorem classifyErr_url (x : String) :
    classifyErr (some ("URL error: " ++ x)) = ErrKind.protocolError := rfl

theorem classifyErr_unexpected (x : String) :
    classifyErr (some ("Unexpected error: " ++ x)) = ErrKind.protocolError := rfl

/-- C5 (amended).  On a probe whose transport connect succeeds but whose
identity fetch-and-parse fails, `validate_port` records a
`ProtocolError`-class message in the result with `identifiesAsTarget=false`
— but `reachableAtTransport` stays `false`, not `true`, because the source
only sets it after a successful parse.  No failure mode escapes as an
exception: every arm of the embedded probe returns a result value. -/
theorem validate_parse_failure_encoded (env : ProbeEnv) (now : Nat) (cache : Cache)
    (port : Nat) (pn : Option String)
    (hconn : env.connect = Except.ok 0)
    (hid : ∀ ts, env.identity ≠ IdentityOutcome.targets ts) :
    ((validatePort env now cache port pn true).1.reachable = false) ∧
    ((validatePort env now cache port pn true).1.is_plugin = false) ∧
    (classifyErr (validatePort env now cache port pn true).1.error
        = ErrKind.protocolError) := by
  cases hcase : env.identity with
  | targets ts => exact absurd hcase (hid ts)
  | httpErr c =>
    unfold validatePort
    rw [hconn, hcase]
    exact ⟨rfl, rfl, classifyErr_http (toString c)⟩
  | urlErr reason =>
    unfold validatePort
    rw [hconn, hcase]
    exact ⟨rfl, rfl, classifyErr_url reason⟩
  | otherErr msg =>
    unfold validatePort
    rw [hconn, hcase]
    exact ⟨rfl, rfl, classifyErr_unexpected msg⟩

/-- Witness for `validate_parse_failure_encoded` at a concrete probe whose
identity parse raises a generic exception. -/
theorem validate_parse_failure_encoded_witness :
    ((validatePort ⟨Except.ok 0, IdentityOutcome.otherErr "boom"⟩ 0 [] 9231 none true).1.reachable
        = false) ∧
    ((validatePort ⟨Except.ok 0, IdentityOutcome.otherErr "boom"⟩ 0 [] 9231 none true).1.is_plugin
        = false) ∧
    (classifyErr (validatePort ⟨Except.ok 0, IdentityOutcome.otherErr "boom"⟩
        0 [] 9231 none true).1.error = ErrKind.protocolError) :=
  validate_parse_failure_encoded ⟨Except.ok 0, IdentityOutcome.otherErr "boom"⟩ 0 [] 9231
    none rfl (fun _ h => nomatch h)

/-- Probe outcome when `connect_ex` returns a nonzero code and the cache
has no fresh entry: the `'Port not open'` result, cached. -/
theorem validatePort_port_not_open (env : ProbeEnv) (now : Nat) (cache : Cache)
    (port : Nat) (pn : Option String) (force : Bool) (c : Nat)
    (hmiss : isCacheValid cache now port = false)
    (hconn : env.connect = Except.ok c) (hc : c ≠ 0) :
    validatePort env now cache port pn force
      = ({ port := port, plugin_name := pn, available := false, reachable := false,
           is_plugin := false, error := some "Port not open", timestamp := now,
           from_cache := false },
         assocSet cache port
           { port := port, plugin_name := pn, available := false, reachable := false,
             is_plugin := false, error := some "Port not open", timestamp := now,
             from_cache := false }) := by
  unfold validatePort
  rw [hconn]
  simp [hmiss, hc]

/-- C9 (confirmed).  When the raw transport connect (2-second socket
timeout) fails with a nonzero code on a probing pass, `validate_port`
returns `reachable=false` with the `'Port not open'` error — the source's
`PortClosed` encoding — and never consults the identity endpoint: the
result is unchanged under any substitution of the identity oracle. -/
theorem validate_transport_failure (env : ProbeEnv) (now : Nat) (cache : Cache)
    (port : Nat) (pn : Option String) (force : Bool) (c : Nat)
    (hmiss : isCacheValid cache now port = false)
    (hconn : env.connect = Except.ok c) (hc : c ≠ 0) :
    ((validatePort env now cache port pn force).1.reachable = false) ∧
    ((validatePort env now cache port pn force).1.error = some "Port not open") ∧
    (classifyErr (validatePort env now cache port pn force).1.error = ErrKind.portClosed) ∧
    (∀ id2, validatePort { env with identity := id2 } now cache port pn force
        = validatePort env now cache port pn force) ∧
    socketTimeoutSeconds ≤ 2 := by
  have h := validatePort_port_not_open env now cache port pn force c hmiss hconn hc
  refine ⟨by rw [h], by rw [h], by rw [h]; rfl, fun id2 => ?_, by decide⟩
  have h2 := validatePort_port_not_open { env with identity := id2 } now cache port pn
    force c hmiss hconn hc
  rw [h2, h]

/-- Witness for `validate_transport_failure`: `connect_ex` returning
code 111 (connection refused) on an empty cache. -/
theorem validate_transport_failure_witness :
    ((validatePort ⟨Except.ok 111, IdentityOutcome.targets []⟩ 0 [] 9230 none false).1.reachable
        = false) ∧
    ((validatePort ⟨Except.ok 111, IdentityOutcome.targets []⟩ 0 [] 9230 none false).1.error
        = some "Port not open") ∧
    (classifyErr (validatePort ⟨Except.ok 111, IdentityOutcome.targets []⟩
        0 [] 9230 none false).1.error = ErrKind.portClosed) :=
  ⟨(validate_transport_failure ⟨Except.ok 111, IdentityOutcome.targets []⟩ 0 [] 9230
      none false 111 (by decide) rfl (by decide)).1,
   (validate_transport_failure ⟨Except.ok 111, IdentityOutcome.targets []⟩ 0 [] 9230
      none false 111 (by decide) rfl (by decide)).2.1,
   (validate_transport_failure ⟨Except.ok 111, IdentityOutcome.targets []⟩ 0 [] 9230
      none false 111 (by decide) rfl (by decide)).2.2.1⟩

/-- C7 (confirmed).  Against a target whose health check never passes and
whose recovery ladder never succeeds, `ensure_healthy` returns `False`
after exactly `max_retries` loop attempts, every one of which failed —
the consecutive-failure count equals `max_retries`, whose default is 3. -/
theorem ensure_healthy_retry_budget (env : Nat → AttemptEnv) (n : Nat)
    (hcheck : ∀ i, performHealthCheck (env i).checks = false)
    (hrec : ∀ i, autoRecover (env i).recovery = false) :
    (ensureHealthy env n = (false, n)) ∧ maxRetriesDefault = 3 := by
  refine ⟨?_, rfl⟩
  have aux : ∀ (fuel attempt : Nat),
      ensureHealthyAux env attempt fuel = (false, attempt + fuel) := by
    intro fuel
    induction fuel with
    | zero => intro attempt; simp [ensureHealthyAux]
    | succ k ih =>
      intro attempt
      simp only [ensureHealthyAux, hcheck, hrec, Bool.false_eq_true, if_false]
      rw [ih (attempt + 1)]
      congr 1
      omega
  simpa [ensureHealthy] using aux n 0

/-- Witness for `ensure_healthy_retry_budget`: with everything failing,
the default budget of 3 attempts is used up and the call reports failure
with 3 consecutive failed checks. -/
theorem ensure_healthy_retry_budget_witness :
    ensureHealthy envFail 3 = (false, 3) :=
  (ensure_healthy_retry_budget envFail 3 (fun _ => rfl) (fun _ => rfl)).1

end PortSystem
